import Mathlib

/-!
Verification development for the rekordbox-link core (`src/beatkeeper.rs`).

The Rust code is shallowly embedded: `f32` arithmetic is modelled exactly
over `ℚ`, machine integers over `Nat`/`Int`, fallible operations (memory
reads, file reads, parses) over `Except`/`Option`, and Rust panics
(out-of-bounds vector indexing) as `Option.none` / a distinguished
`UpdateErr.panic` outcome.  Rust strings that undergo byte-level
operations (paths, the track-info buffer) are modelled as `List Char` /
`List Nat`; strings that are only compared for equality stay `String`.
-/

deriving instance DecidableEq for Except

namespace Rkbx

/-- `offsets::Pointer`: an ordered list of intermediate offsets plus a final offset. -/
structure Pointer where
  offsets : List Nat
  final_offset : Nat
  deriving DecidableEq

/-- `beatkeeper::ReadError`: the error record attached to every failed memory read.
`error` stands for the `TAExternalError` kind, encoded as a numeric tag. -/
structure ReadError where
  pointer : Option Pointer
  address : Nat
  error : Nat
  deriving DecidableEq

/-- `beatkeeper::TimingDataRaw`: raw per-deck timing sample read from host memory. -/
structure TimingDataRaw where
  current_bpm : ℚ
  sample_position : Int
  deriving DecidableEq

/-- `beatkeeper::TrackInfo`: decoded track metadata. -/
structure TrackInfo where
  title : String
  artist : String
  album : String
  deriving DecidableEq

/-- `TrackInfo::default`: all fields empty. -/
def TrackInfo.default : TrackInfo := ⟨"", "", ""⟩

/-- `rekordcrate::anlz::BeatGridBeat`: one beat-grid anchor,
`beat_number` (u8, 1..4), `tempo` in centi-BPM (u16), `time` in ms (u32). -/
structure GridBeat where
  beat_number : Nat
  tempo : Nat
  time : Nat
  deriving DecidableEq

/-- `rekordcrate::anlz::BeatGrid`: ordered list of grid beats. -/
structure BeatGrid where
  beats : List GridBeat
  deriving DecidableEq

/-- `rekordcrate::anlz::Phrase`: one song-structure phrase entry,
`beat` its 1-based starting beat index, `kind` its kind tag (numeric stand-in). -/
structure Phrase where
  beat : Nat
  kind : Nat
  deriving DecidableEq

/-- `rekordcrate::anlz::SongStructureData`: mood (numeric stand-in) plus phrase list. -/
structure SongStructureData where
  mood : Nat
  phrases : List Phrase
  deriving DecidableEq

/-- `beatkeeper::TrackTracker`: per-deck cache of the parsed ANLZ data. -/
structure TrackTracker where
  beatgrid : Option BeatGrid
  songstructure : Option SongStructureData
  deriving DecidableEq

/-- `TrackTracker::new`: empty caches. -/
def TrackTracker.new : TrackTracker := ⟨none, none⟩

/-- `beatkeeper::TrackTrackerResult`: the derived quantities of one tracker update. -/
structure TrackTrackerResult where
  beat : ℚ
  original_bpm : ℚ
  timing_data_raw : TimingDataRaw
  phrase : String
  next_phrase : String
  next_phrase_in : Int
  deriving DecidableEq

/-- `beatkeeper::ChangeTrackedValue`: a cell remembering the last dispatched value. -/
structure ChangeTrackedValue (T : Type) where
  value : T
  deriving DecidableEq

/-- `ChangeTrackedValue::set`: store `value` if it differs from the held one and
report whether it differed.  Rust mutates in place; the embedding returns the
changed-flag together with the updated cell. -/
def ChangeTrackedValue.set {T : Type} [DecidableEq T]
    (c : ChangeTrackedValue T) (value : T) : Bool × ChangeTrackedValue T :=
  if c.value ≠ value then (true, ⟨value⟩) else (false, c)

/-- Default grid beat used only to state `getD`-style lookups. -/
def defaultGridBeat : GridBeat := ⟨0, 0, 0⟩

/-- The beat-grid index scan of `TrackTracker::update`: walk the grid counting
beats whose time (ms → s) is strictly before `time_now`, then saturating
subtract one. -/
def gridScanIdx (beats : List GridBeat) (time_now : ℚ) : Nat :=
  (beats.takeWhile (fun gb => decide ((gb.time : ℚ) / 1000 < time_now))).length - 1

/-- The phrase-label part of `TrackTracker::update` (the block guarded by
`if let Some(songstructure)`): linear scan counting phrases whose starting beat
is `≤ beat_num`, clamp to the last such phrase, resolve labels through the
phrase parser.  Out-of-bounds phrase indexing (empty phrase list) is `none`. -/
def phrasePart (tt : TrackTracker) (phrase_name : Nat → Phrase → String)
    (td : TimingDataRaw) (beat_idx : Nat) (beat original_bpm : ℚ) :
    Option TrackTrackerResult :=
  let beat_num := beat_idx + 1
  match tt.songstructure with
  | none => some ⟨beat, original_bpm, td, "", "", 0⟩
  | some songstructure =>
    let cnt := (songstructure.phrases.takeWhile (fun p => !(decide (p.beat > beat_num)))).length
    let phrase_idx := cnt - 1
    match songstructure.phrases.get? phrase_idx with
    | none => none
    | some cur =>
      let phrase := phrase_name songstructure.mood cur
      if h : phrase_idx + 1 < songstructure.phrases.length then
        let next_phrase := songstructure.phrases.get ⟨phrase_idx + 1, h⟩
        let next_phrase_in : Int := (next_phrase.beat : Int) - (beat_num : Int)
        some ⟨beat, original_bpm, td, phrase,
              phrase_name songstructure.mood next_phrase, next_phrase_in⟩
      else
        some ⟨beat, original_bpm, td, phrase, "", 0⟩

/-- The beat-grid and phrase computation of `TrackTracker::update`, with the
already-coerced timing data and the already-computed `time_now`. -/
def trackerComputeAt (tt : TrackTracker) (phrase_name : Nat → Phrase → String)
    (td : TimingDataRaw) (time_now : ℚ) : Option TrackTrackerResult :=
  match tt.beatgrid with
  | none => phrasePart tt phrase_name td 0 0 120
  | some grid =>
    let beat_idx := gridScanIdx grid.beats time_now
    match grid.beats.get? beat_idx with
    | none => none
    | some gridbeat =>
      let remainder := time_now - (gridbeat.time : ℚ) / 1000
      let original_bpm := (gridbeat.tempo : ℚ) / 100
      let spb := 1 / ((gridbeat.tempo : ℚ) / 100 / 60)
      let b := (gridbeat.beat_number + 3) % 4
      let beat := (b : ℚ) + remainder / spb
      phrasePart tt phrase_name td beat_idx beat original_bpm

/-- The pure computation of `TrackTracker::update` after the memory read:
zero-BPM coercion, `time_now` from sample position and delay offset at
44 100 Hz, then the grid scan and phrase resolution.  `none` models the Rust
panic on out-of-bounds indexing (`grid.beats[beat_idx]`, `phrases[phrase_idx]`). -/
def trackerCompute (tt : TrackTracker) (phrase_name : Nat → Phrase → String)
    (td0 : TimingDataRaw) (offset_samples : Int) : Option TrackTrackerResult :=
  let td : TimingDataRaw :=
    if td0.current_bpm = 0 then { td0 with current_bpm := 120 } else td0
  let time_now : ℚ := ((td.sample_position + offset_samples : Int) : ℚ) / 44100
  trackerComputeAt tt phrase_name td time_now

/-- Modelled from the spec (§4.3): the largest index `i` with
`grid[i].time_ms/1000 < t_now`, clamped to `0` when no such index exists.
This is the specification-side description of the grid search, to be compared
with the linear scan of the source. -/
def specGridIdx (beats : List GridBeat) (t : ℚ) : Nat :=
  Nat.findGreatest (fun i => ((beats.getD i defaultGridBeat).time : ℚ) / 1000 < t)
    (beats.length - 1)

/-- UTF-8 continuation byte check: `0x80..0xBF`. -/
def isCont (b : Nat) : Bool := 0x80 ≤ b && b ≤ 0xBF

/-- UTF-8 validity of a byte sequence, per RFC 3629, which is what Rust's
`String::from_utf8` accepts: no overlong encodings, no surrogate code points,
nothing above U+10FFFF. -/
def utf8Valid : List Nat → Bool
  | [] => true
  | b :: rest =>
    if b ≤ 0x7F then utf8Valid rest
    else if 0xC2 ≤ b && b ≤ 0xDF then
      match rest with
      | c1 :: r => isCont c1 && utf8Valid r
      | [] => false
    else if b = 0xE0 then
      match rest with
      | c1 :: c2 :: r => (0xA0 ≤ c1 && c1 ≤ 0xBF) && isCont c2 && utf8Valid r
      | _ => false
    else if (0xE1 ≤ b && b ≤ 0xEC) || b = 0xEE || b = 0xEF then
      match rest with
      | c1 :: c2 :: r => isCont c1 && isCont c2 && utf8Valid r
      | _ => false
    else if b = 0xED then
      match rest with
      | c1 :: c2 :: r => (0x80 ≤ c1 && c1 ≤ 0x9F) && isCont c2 && utf8Valid r
      | _ => false
    else if b = 0xF0 then
      match rest with
      | c1 :: c2 :: c3 :: r => (0x90 ≤ c1 && c1 ≤ 0xBF) && isCont c2 && isCont c3 && utf8Valid r
      | _ => false
    else if 0xF1 ≤ b && b ≤ 0xF3 then
      match rest with
      | c1 :: c2 :: c3 :: r => isCont c1 && isCont c2 && isCont c3 && utf8Valid r
      | _ => false
    else if b = 0xF4 then
      match rest with
      | c1 :: c2 :: c3 :: r => (0x80 ≤ c1 && c1 ≤ 0x8F) && isCont c2 && isCont c3 && utf8Valid r
      | _ => false
    else false

/-- The bytes of the fallback string `"ERR"` substituted on UTF-8 decode failure. -/
def errBytes : List Nat := [69, 82, 82]

/-- Split a byte list on the LF byte, with `splitOn` semantics
(`[]` gives `[[]]`, a trailing LF gives a trailing empty part). -/
def splitOnNl : List Nat → List (List Nat)
  | [] => [[]]
  | b :: rest =>
    let parts := splitOnNl rest
    if b = 10 then [] :: parts
    else (b :: parts.headD []) :: parts.tail

/-- Drop one trailing CR, as Rust's `str::lines` does per line. -/
def stripCR (l : List Nat) : List Nat :=
  if l.getLast? = some 13 then l.dropLast else l

/-- Rust `str::lines` over bytes: split on LF, drop the final empty part
produced by a trailing LF (or by the empty string), strip one trailing CR. -/
def linesBytes (l : List Nat) : List (List Nat) :=
  let parts := splitOnNl l
  (if parts.getLast? = some [] then parts.dropLast else parts).map stripCR

/-- Rust `str::split_once` restricted to what the decode uses: the text after
the first occurrence of `sep`, or `none` when `sep` does not occur. -/
def splitOnceAfter (sep : List Nat) : List Nat → Option (List Nat)
  | [] => none
  | a :: as =>
    if sep.isPrefixOf (a :: as) then some ((a :: as).drop sep.length)
    else splitOnceAfter sep as

/-- One line of the track-info text: the value after the first `": "`,
or `""` when the line has none (`unwrap_or(("", "")).1`). -/
def lineValue (line : List Nat) : List Nat := (splitOnceAfter [58, 32] line).getD []

/-- The shared `String::from_utf8(raw).unwrap_or_else(|_| "ERR")` step of the
track-info and ANLZ-path decodes. -/
def decodeOrErr (raw : List Nat) : List Nat := if utf8Valid raw then raw else errBytes

/-- Byte-level `TrackInfo` as produced by `Rekordbox::get_track_infos` for one
deck (the decode works on raw buffer bytes; on valid UTF-8 the bytes and the
decoded string correspond one-to-one). -/
structure TrackInfoBytes where
  title : List Nat
  artist : List Nat
  album : List Nat
  deriving DecidableEq

/-- The per-deck decode of `Rekordbox::get_track_infos` (lines 179-200):
truncate the 200-byte buffer at the first NUL, decode as UTF-8 with `"ERR"` as
the failure fallback, split into lines, take the value after the first `": "`
of the first three lines as title, artist, album. -/
def get_track_info (buffer : List Nat) : TrackInfoBytes :=
  let raw := buffer.takeWhile (fun x => x ≠ 0)
  let text := decodeOrErr raw
  let vals := (linesBytes text).map lineValue
  ⟨vals.getD 0 [], vals.getD 1 [], vals.getD 2 []⟩

/-- Rust `str::replace` on char lists: replace every non-overlapping
occurrence of `pat` left-to-right.  The fuel argument (instantiated with the
list length, consumed once per emitted char or match) keeps the recursion
structural. -/
def replaceFuel (pat rep : List Char) : Nat → List Char → List Char
  | 0, l => l
  | _ + 1, [] => []
  | fuel + 1, a :: as =>
    if pat.isPrefixOf (a :: as) && !pat.isEmpty then
      rep ++ replaceFuel pat rep fuel (as.drop (pat.length - 1))
    else
      a :: replaceFuel pat rep fuel as

/-- `s.replace(pat, rep)` over char lists. -/
def replaceList (l pat rep : List Char) : List Char := replaceFuel pat rep l.length l

/-- The backslash pattern of the watcher-path normalization. -/
def bsChars : List Char := ['\\']

/-- The forward-slash replacement of the watcher-path normalization. -/
def fsChars : List Char := ['/']

/-- The `".DAT"` pattern of the `.DAT → .EXT` sibling substitution. -/
def datChars : List Char := ['.', 'D', 'A', 'T']

/-- The `".EXT"` replacement of the `.DAT → .EXT` sibling substitution. -/
def extChars : List Char := ['.', 'E', 'X', 'T']

/-- The watcher-event matching of `BeatKeeper::update` (lines 613-617):
normalize the event path `\ → /`, then find the first deck whose stored ANLZ
path — or that path's `.EXT` sibling — equals it. -/
def watcherEventDeck (anlz_path_values : List (List Char)) (event_path : List Char) :
    Option Nat :=
  let path := replaceList event_path bsChars fsChars
  anlz_path_values.findIdx?
    (fun x => x = path || replaceList x datChars extChars = path)

/-- The per-deck decode of `Rekordbox::get_anlz_paths` (lines 202-213):
truncate the 500-byte buffer at the first NUL and decode as UTF-8 with `"ERR"`
fallback.  No separator normalization happens here. -/
def get_anlz_path (buffer : List Nat) : List Nat :=
  decodeOrErr (buffer.takeWhile (fun x => x ≠ 0))

/-- `config::Config`: modelled as partial maps from dotted key names to the
integer and boolean values consulted by the scheduler. -/
structure Config where
  ints : String → Option Nat
  bools : String → Option Bool

/-- `Config::reduce_to_namespace`: prefix every lookup with `ns.`. -/
def Config.reduce_to_namespace (c : Config) (ns : String) : Config :=
  ⟨fun k => c.ints (ns ++ "." ++ k), fun k => c.bools (ns ++ "." ++ k)⟩

/-- `Config::get_or_default` at integer type. -/
def Config.get_or_default_int (c : Config) (k : String) (d : Nat) : Nat :=
  (c.ints k).getD d

/-- `Config::get_or_default` at boolean type. -/
def Config.get_or_default_bool (c : Config) (k : String) (d : Bool) : Bool :=
  (c.bools k).getD d

/-- A configuration with no `keeper.*` keys present. -/
def emptyConfig : Config := ⟨fun _ => none, fun _ => none⟩

/-- `BeatKeeper::start` line 369: the deck-loop bound
`keeper_config.get_or_default("decks", 4)`. -/
def bkDecks (config : Config) : Nat :=
  (config.reduce_to_namespace "keeper").get_or_default_int "decks" 4

/-- `BeatKeeper::start` line 368: `keeper_config.get_or_default("keep_warm", true)`. -/
def bkKeepWarm (config : Config) : Bool :=
  (config.reduce_to_namespace "keeper").get_or_default_bool "keep_warm" true

/-- `BeatKeeper::start` line 414: the deck count passed to `Rekordbox::new`,
`config.get_or_default("keeper.decks", 2)`. -/
def rbDecksArg (config : Config) : Nat :=
  config.get_or_default_int "keeper.decks" 2

/-- The per-deck reader vectors of `Rekordbox`, for bounds analysis. -/
structure RekordboxVecs where
  sample_positions : List Int
  current_bpms : List ℚ

/-- `Rekordbox::new` builds the per-deck vectors from the offset-table slices
`[0..decks]`, so both have length `decks` (the stored initial values are
irrelevant to the bounds question). -/
def mkRekordboxVecs (decks : Nat) : RekordboxVecs :=
  ⟨List.replicate decks 0, List.replicate decks 0⟩

/-- `Rekordbox::read_timing_data` (lines 165-173): index the per-deck vectors
at `deck`; `none` models the Rust index-out-of-bounds panic. -/
def Rekordbox.read_timing_data (rb : RekordboxVecs) (deck : Nat) : Option TimingDataRaw :=
  match rb.sample_positions.get? deck with
  | none => none
  | some sample_position =>
    match rb.current_bpms.get? deck with
    | none => none
    | some current_bpm => some ⟨current_bpm, sample_position⟩

/-- The deck indices processed by the per-deck loop of `BeatKeeper::update`
(line 490-496): `i` in `0..decks` with `i == master || keep_warm`. -/
def processedDecks (decks : Nat) (keep_warm : Bool) (master : Nat) : List Nat :=
  (List.range decks).filter (fun i => decide (i = master) || keep_warm)

/-- `rekordcrate::anlz::Content`: the section variants the core consumes
(`SongStructure` carries its `.data` payload directly). -/
inductive AnlzContent where
  | BeatGrid (grid : BeatGrid)
  | SongStructure (data : SongStructureData)
  | Other
  deriving DecidableEq

/-- `rekordcrate::anlz::Section`: a tagged section of an ANLZ file. -/
structure AnlzSection where
  content : AnlzContent
  deriving DecidableEq

/-- `rekordcrate::anlz::ANLZ`: the parsed section tree. -/
structure ANLZ where
  sections : List AnlzSection
  deriving DecidableEq

/-- The `.DAT` section fold of the reload block (lines 672-680): store every
`BeatGrid` section into the tracker's beat-grid cache. -/
def applyDatSections (tt : TrackTracker) (sections : List AnlzSection) : TrackTracker :=
  sections.foldl
    (fun t s =>
      match s.content with
      | .BeatGrid grid => { t with beatgrid := some grid }
      | _ => t) tt

/-- The `.EXT` section fold of the reload block (lines 698-706): store every
`SongStructure` section into the tracker's song-structure cache. -/
def applyExtSections (tt : TrackTracker) (sections : List AnlzSection) : TrackTracker :=
  sections.foldl
    (fun t s =>
      match s.content with
      | .SongStructure data => { t with songstructure := some data }
      | _ => t) tt

/-- The ANLZ reload block of `BeatKeeper::update` (lines 658-707) for one deck
whose stored path is `path`: read and parse the `.DAT` and fold its sections
into the beat-grid cache, then read and parse the `.EXT` sibling and fold its
sections into the song-structure cache.  Each failure logs and `continue`s the
deck loop, keeping whatever has been applied up to that point. -/
def reloadAnlz (fs_read : List Char → Option (List Nat)) (parse : List Nat → Option ANLZ)
    (path : List Char) (tt : TrackTracker) : TrackTracker :=
  match fs_read path with
  | none => tt
  | some bytes =>
    match parse bytes with
    | none => tt
    | some anlz =>
      let tt1 := applyDatSections tt anlz.sections
      match fs_read (replaceList path datChars extChars) with
      | none => tt1
      | some bytes2 =>
        match parse bytes2 with
        | none => tt1
        | some anlz2 => applyExtSections tt1 anlz2.sections

/-- One dispatched output-module callback, tagged with the module index `m` in
the `running_modules` list.  The constructors mirror the `OutputModule` trait;
`watch_path`/`unwatch_path` record the filesystem-watcher registrations. -/
inductive Event where
  | pre_update (m : Nat)
  | beat_update (m : Nat) (v : ℚ) (deck : Nat)
  | time_update (m : Nat) (v : ℚ) (deck : Nat)
  | bpm_changed (m : Nat) (v : ℚ) (deck : Nat)
  | original_bpm_changed (m : Nat) (v : ℚ) (deck : Nat)
  | phrase_changed (m : Nat) (s : String) (deck : Nat)
  | next_phrase_changed (m : Nat) (s : String) (deck : Nat)
  | next_phrase_in (m : Nat) (v : Int) (deck : Nat)
  | beat_update_master (m : Nat) (v : ℚ)
  | time_update_master (m : Nat) (v : ℚ)
  | bpm_changed_master (m : Nat) (v : ℚ)
  | original_bpm_changed_master (m : Nat) (v : ℚ)
  | phrase_changed_master (m : Nat) (s : String)
  | next_phrase_changed_master (m : Nat) (s : String)
  | next_phrase_in_master (m : Nat) (v : Int)
  | track_changed (m : Nat) (t : TrackInfo) (deck : Nat)
  | track_changed_master (m : Nat) (t : TrackInfo)
  | anlz_path_changed (m : Nat) (p : List Char) (deck : Nat)
  | masterdeck_index_changed (m : Nat) (idx : Nat)
  | slow_update (m : Nat)
  | watch_path (p : List Char)
  | unwatch_path (p : List Char)
  deriving DecidableEq

/-- `beatkeeper::HeartbeatConfig`. -/
structure HeartbeatConfig where
  bpm : Bool
  original_bpm : Bool
  beat : Bool
  pos : Bool
  phrase : Bool
  anlz_path : Bool
  masterdeck_index : Bool
  track_info : Bool
  deriving DecidableEq

/-- The all-false heartbeat configuration (every key defaults to `false`). -/
def HeartbeatConfig.allOff : HeartbeatConfig := ⟨false, false, false, false, false, false, false, false⟩

/-- `beatkeeper::TrackingDataTracker`: the seven change-tracked cells of one
dispatch channel. -/
structure TrackingDataTracker where
  bpm_changed : ChangeTrackedValue ℚ
  original_bpm_changed : ChangeTrackedValue ℚ
  beat_changed : ChangeTrackedValue ℚ
  pos_changed : ChangeTrackedValue Int
  phrase : ChangeTrackedValue String
  next_phrase : ChangeTrackedValue String
  next_phrase_in : ChangeTrackedValue Int
  deriving DecidableEq

/-- `TrackingDataTracker::new`: zeros and empty strings. -/
def TrackingDataTracker.new : TrackingDataTracker :=
  ⟨⟨0⟩, ⟨0⟩, ⟨0⟩, ⟨0⟩, ⟨""⟩, ⟨""⟩, ⟨0⟩⟩

/-- The scheduler state of `beatkeeper::BeatKeeper` consulted by `update`. -/
structure BeatKeeper where
  masterdeck_index : ChangeTrackedValue Nat
  offset_samples : Int
  track_infos : List (ChangeTrackedValue TrackInfo)
  track_trackers : List TrackTracker
  anlz_paths : List (ChangeTrackedValue (List Char))
  keep_warm : Bool
  decks : Nat
  td_trackers : List TrackingDataTracker
  master_td_tracker : TrackingDataTracker
  hearbeat_config : HeartbeatConfig
  very_slow_update_flag : Bool

/-- The environment one `BeatKeeper::update` call reads from: the `Rekordbox`
snapshot's read methods, the drained watcher queue, the filesystem, the ANLZ
parser, the phrase parser, and the registered module indices. -/
structure UpdateEnv where
  read_masterdeck_index : Except ReadError Nat
  read_timing_data : Nat → Except ReadError TimingDataRaw
  get_track_infos : Except ReadError (List TrackInfo)
  get_anlz_paths : Except ReadError (List (List Char))
  deckcount : Nat
  watcher_queue : List (Except Unit (List (List Char)))
  fs_read : List Char → Option (List Nat)
  parse : List Nat → Option ANLZ
  phrase_name : Nat → Phrase → String
  modules : List Nat

/-- An `update` outcome that is not `Ok`: a propagated memory-read error, or a
Rust panic (out-of-bounds indexing). -/
inductive UpdateErr where
  | read (e : ReadError)
  | panic
  deriving DecidableEq

/-- The per-deck dispatch block (lines 512-534) as seen by module `m`: the
field events fire in source order beat, time, bpm, original_bpm, phrase,
next_phrase, next_phrase_in, each guarded by its changed-flag. -/
def deckFieldEvents (m : Nat) (i : Nat) (res : TrackTrackerResult)
    (beat_changed pos_changed bpm_changed original_bpm_changed
      phrase_changed next_phrase_changed next_phrase_in_changed : Bool) : List Event :=
  (if beat_changed then [Event.beat_update m res.beat i] else [])
  ++ (if pos_changed then
        [Event.time_update m ((res.timing_data_raw.sample_position : ℚ) / 44100) i] else [])
  ++ (if bpm_changed then [Event.bpm_changed m res.timing_data_raw.current_bpm i] else [])
  ++ (if original_bpm_changed then [Event.original_bpm_changed m res.original_bpm i] else [])
  ++ (if phrase_changed then [Event.phrase_changed m res.phrase i] else [])
  ++ (if next_phrase_changed then [Event.next_phrase_changed m res.next_phrase i] else [])
  ++ (if next_phrase_in_changed then [Event.next_phrase_in m res.next_phrase_in i] else [])

/-- The master-channel dispatch block (lines 564-588) as seen by module `m`:
same field order; the phrase and next-phrase events read the master cells'
stored values. -/
def masterFieldEvents (m : Nat) (res : TrackTrackerResult)
    (phrase_value next_phrase_value : String)
    (beat_changed pos_changed bpm_changed original_bpm_changed
      phrase_changed next_phrase_changed next_phrase_in_changed : Bool) : List Event :=
  (if beat_changed then [Event.beat_update_master m res.beat] else [])
  ++ (if pos_changed then
        [Event.time_update_master m ((res.timing_data_raw.sample_position : ℚ) / 44100)] else [])
  ++ (if bpm_changed then [Event.bpm_changed_master m res.timing_data_raw.current_bpm] else [])
  ++ (if original_bpm_changed then [Event.original_bpm_changed_master m res.original_bpm] else [])
  ++ (if phrase_changed then [Event.phrase_changed_master m phrase_value] else [])
  ++ (if next_phrase_changed then [Event.next_phrase_changed_master m next_phrase_value] else [])
  ++ (if next_phrase_in_changed then [Event.next_phrase_in_master m res.next_phrase_in] else [])

/-- One iteration of the per-deck loop of `BeatKeeper::update` (lines 490-591)
for deck `i`: run the tracker (skipping the deck when the timing read fails),
update the seven per-deck cells, dispatch the per-deck events to every module,
and when `i` is the master deck update the master cells and dispatch the
master mirrors.  Returns the updated deck cells, master cells, and events. -/
def processDeck (env : UpdateEnv) (hb : HeartbeatConfig) (very_slow_update keep_warm : Bool)
    (offset_samples : Int) (master : Nat) (i : Nat) (tt : TrackTracker)
    (td : TrackingDataTracker) (mtd : TrackingDataTracker) :
    Except UpdateErr (TrackingDataTracker × TrackingDataTracker × List Event) :=
  let is_master := i = master
  if is_master ∨ keep_warm then
    match env.read_timing_data i with
    | .error _ => .ok (td, mtd, [])
    | .ok tdRaw =>
      match trackerCompute tt env.phrase_name tdRaw offset_samples with
      | none => .error .panic
      | some res =>
        let s1 := td.bpm_changed.set res.timing_data_raw.current_bpm
        let bpm_changed := s1.1 || very_slow_update && hb.bpm
        let s2 := td.original_bpm_changed.set res.original_bpm
        let original_bpm_changed := s2.1 || very_slow_update && hb.original_bpm
        let s3 := td.beat_changed.set res.beat
        let beat_changed := s3.1 || very_slow_update && hb.beat
        let s4 := td.pos_changed.set res.timing_data_raw.sample_position
        let pos_changed := s4.1 || very_slow_update && hb.pos
        let s5 := td.phrase.set res.phrase
        let phrase_changed := s5.1 || very_slow_update && hb.phrase
        let s6 := td.next_phrase.set res.next_phrase
        let next_phrase_changed := s6.1 || very_slow_update && hb.phrase
        let s7 := td.next_phrase_in.set res.next_phrase_in
        let next_phrase_in_changed := s7.1 || very_slow_update && hb.phrase
        let td' : TrackingDataTracker := ⟨s1.2, s2.2, s3.2, s4.2, s5.2, s6.2, s7.2⟩
        let deckEvs := (env.modules.map (fun m =>
          deckFieldEvents m i res beat_changed pos_changed bpm_changed original_bpm_changed
            phrase_changed next_phrase_changed next_phrase_in_changed)).flatten
        if is_master then
          let t1 := mtd.bpm_changed.set res.timing_data_raw.current_bpm
          let mbpm := t1.1 || very_slow_update && hb.bpm
          let t2 := mtd.original_bpm_changed.set res.original_bpm
          let mobpm := t2.1 || very_slow_update && hb.original_bpm
          let t3 := mtd.beat_changed.set res.beat
          let mbeat := t3.1 || very_slow_update && hb.beat
          let t4 := mtd.pos_changed.set res.timing_data_raw.sample_position
          let mpos := t4.1 || very_slow_update && hb.pos
          let t5 := mtd.phrase.set res.phrase
          let mphr := t5.1 || very_slow_update && hb.phrase
          let t6 := mtd.next_phrase.set res.next_phrase
          let mnphr := t6.1 || very_slow_update && hb.phrase
          let t7 := mtd.next_phrase_in.set res.next_phrase_in
          let mnin := t7.1 || very_slow_update && hb.phrase
          let mtd' : TrackingDataTracker := ⟨t1.2, t2.2, t3.2, t4.2, t5.2, t6.2, t7.2⟩
          let masterEvs := (env.modules.map (fun m =>
            masterFieldEvents m res mtd'.phrase.value mtd'.next_phrase.value
              mbeat mpos mbpm mobpm mphr mnphr mnin)).flatten
          .ok (td', mtd', deckEvs ++ masterEvs)
        else
          .ok (td', mtd, deckEvs)
  else
    .ok (td, mtd, [])

/-- The whole per-deck loop: fold `processDeck` over the zipped, enumerated
slices, threading the master cells and collecting events in deck order. -/
def deckLoop (env : UpdateEnv) (hb : HeartbeatConfig) (very_slow_update keep_warm : Bool)
    (offset_samples : Int) (master : Nat) :
    List (Nat × TrackTracker × TrackingDataTracker) → TrackingDataTracker →
    Except UpdateErr (List TrackingDataTracker × TrackingDataTracker × List Event)
  | [], mtd => .ok ([], mtd, [])
  | (i, tt, td) :: rest, mtd =>
    match processDeck env hb very_slow_update keep_warm offset_samples master i tt td mtd with
    | .error e => .error e
    | .ok (td', mtd', evs) =>
      match deckLoop env hb very_slow_update keep_warm offset_samples master rest mtd' with
      | .error e => .error e
      | .ok (tds, mtdF, evsRest) => .ok (td' :: tds, mtdF, evs ++ evsRest)

/-- The track-info refresh of the slow tick (lines 598-605): set each deck's
cell, dispatch `track_changed` on a change (or track-info heartbeat), and
remember whether the master deck's info changed.  `none` models the panic on
`self.track_infos[i]` when the snapshot reports more decks than cells. -/
def trackInfosLoop (modules : List Nat) (track_info_hb : Bool) (master : Nat) :
    Nat → List TrackInfo → List (ChangeTrackedValue TrackInfo) → Bool →
    Option (List (ChangeTrackedValue TrackInfo) × List Event × Bool)
  | _, [], cells, mtc => some (cells, [], mtc)
  | i, track :: rest, cells, mtc =>
    match cells.get? i with
    | none => none
    | some c =>
      let s := c.set track
      let cells' := cells.set i s.2
      let fire := s.1 || track_info_hb
      let evs := if fire then modules.map (fun m => Event.track_changed m s.2.value i) else []
      let mtc' := if fire then mtc || decide (master = i) else mtc
      match trackInfosLoop modules track_info_hb master (i + 1) rest cells' mtc' with
      | none => none
      | some (cellsF, evsF, mtcF) => some (cellsF, evs ++ evsF, mtcF)

/-- The watcher drain of the slow tick (lines 609-624): for each queued event
take its first path, match it against the stored deck paths through
`watcherEventDeck`, and set that deck's ANLZ-file-updated flag.  Watcher
errors only log. -/
def drainLoop (cells : List (ChangeTrackedValue (List Char))) :
    List (Except Unit (List (List Char))) → List Bool → List Bool
  | [], flags => flags
  | .error _ :: rest, flags => drainLoop cells rest flags
  | .ok paths :: rest, flags =>
    match paths.head? with
    | none => drainLoop cells rest flags
    | some p =>
      match watcherEventDeck (cells.map (fun x => x.value)) p with
      | none => drainLoop cells rest flags
      | some i => drainLoop cells rest (flags.set i true)

/-- The ANLZ-path loop of the slow tick (lines 626-708) over the enumerated
paths reported by the host: dispatch `anlz_path_changed` on change or
heartbeat; on change also rewire the watcher (unwatch old `.DAT`/`.EXT`, store
the new path, watch new `.DAT`/`.EXT`); on change or file-updated flag reload
the ANLZ caches through `reloadAnlz`.  `none` models the panics on
`self.anlz_paths[i]` / `self.track_trackers[i]`. -/
def anlzLoop (env : UpdateEnv) (anlz_path_hb : Bool) (vs_flag : Bool) (fileUpd : List Bool) :
    Nat → List (List Char) → List (ChangeTrackedValue (List Char)) → List TrackTracker →
    Option (List (ChangeTrackedValue (List Char)) × List TrackTracker × List Event)
  | _, [], cells, trackers => some (cells, trackers, [])
  | i, path :: rest, cells, trackers =>
    match cells.get? i with
    | none => none
    | some cell =>
      let pathEvs := if cell.value ≠ path ∨ vs_flag && anlz_path_hb then
          env.modules.map (fun m => Event.anlz_path_changed m path i) else []
      if cell.value ≠ path ∨ fileUpd.getD i false then
        let watchEvs := if cell.value ≠ path then
            [Event.unwatch_path cell.value,
             Event.unwatch_path (replaceList cell.value datChars extChars),
             Event.watch_path path,
             Event.watch_path (replaceList path datChars extChars)] else []
        let cell' := if cell.value ≠ path then (cell.set path).2 else cell
        let cells' := cells.set i cell'
        match trackers.get? i with
        | none => none
        | some tt =>
          let trackers' := trackers.set i (reloadAnlz env.fs_read env.parse cell'.value tt)
          match anlzLoop env anlz_path_hb vs_flag fileUpd (i + 1) rest cells' trackers' with
          | none => none
          | some (cF, tF, evsF) => some (cF, tF, pathEvs ++ watchEvs ++ evsF)
      else
        match anlzLoop env anlz_path_hb vs_flag fileUpd (i + 1) rest cells trackers with
        | none => none
        | some (cF, tF, evsF) => some (cF, tF, pathEvs ++ evsF)

/-- The tail of `BeatKeeper::update` (lines 717-732): the masterdeck-index
dispatch (on change or heartbeat) followed by the master track-changed
dispatch (on master change or master track change), which indexes
`self.track_infos[master]` (`none` models that panic). -/
def finishEvents (modules : List Nat) (masterdeck_index_hb very_slow_update : Bool)
    (masterdeck_index_changed masterdeck_track_changed : Bool) (master : Nat)
    (tiCells : List (ChangeTrackedValue TrackInfo)) : Option (List Event) :=
  let mdiEvs := if masterdeck_index_changed ∨ very_slow_update && masterdeck_index_hb then
      modules.map (fun m => Event.masterdeck_index_changed m master) else []
  if masterdeck_index_changed ∨ masterdeck_track_changed then
    match tiCells.get? master with
    | none => none
    | some c => some (mdiEvs ++ modules.map (fun m => Event.track_changed_master m c.value))
  else
    some mdiEvs

/-- `BeatKeeper::update` (lines 471-735): read the master index, short-circuit
when it is out of deck range, latch the very-slow flag, `pre_update` all
modules, run the per-deck loop, on slow ticks refresh track infos, drain the
watcher, process ANLZ paths and reloads and `slow_update` all modules, then
dispatch the masterdeck-index and master-track events.  Returns the updated
state and the dispatched events in order. -/
def BeatKeeper.update (bk : BeatKeeper) (env : UpdateEnv)
    (slow_update very_slow_update : Bool) : Except UpdateErr (BeatKeeper × List Event) :=
  match env.read_masterdeck_index with
  | .error e => .error (.read e)
  | .ok mi =>
    let s0 := bk.masterdeck_index.set mi
    let masterdeck_index_changed := s0.1
    let midx := s0.2
    if midx.value ≥ env.deckcount then
      .ok ({ bk with masterdeck_index := midx }, [])
    else
      let vs_flag := if very_slow_update then true else bk.very_slow_update_flag
      let preEvs := env.modules.map Event.pre_update
      if bk.decks ≤ bk.track_trackers.length ∧ bk.decks ≤ bk.td_trackers.length then
        let triples := (List.range bk.decks).zip
          ((bk.track_trackers.take bk.decks).zip (bk.td_trackers.take bk.decks))
        match deckLoop env bk.hearbeat_config very_slow_update bk.keep_warm bk.offset_samples
            midx.value triples bk.master_td_tracker with
        | .error e => .error e
        | .ok (tds, mtd', deckEvs) =>
          let td_trackers' := tds ++ bk.td_trackers.drop bk.decks
          if slow_update then
            match env.get_track_infos with
            | .error e => .error (.read e)
            | .ok infos =>
              match trackInfosLoop env.modules (vs_flag && bk.hearbeat_config.track_info)
                  midx.value 0 infos bk.track_infos false with
              | none => .error .panic
              | some (tiCells, tiEvs, masterdeck_track_changed) =>
                let fileUpd := drainLoop bk.anlz_paths env.watcher_queue
                  (List.replicate 4 false)
                match env.get_anlz_paths with
                | .error e => .error (.read e)
                | .ok paths =>
                  match anlzLoop env bk.hearbeat_config.anlz_path vs_flag fileUpd
                      0 paths bk.anlz_paths bk.track_trackers with
                  | none => .error .panic
                  | some (apCells, trackers', anlzEvs) =>
                    let slowEvs := env.modules.map Event.slow_update
                    match finishEvents env.modules bk.hearbeat_config.masterdeck_index
                        very_slow_update masterdeck_index_changed masterdeck_track_changed
                        midx.value tiCells with
                    | none => .error .panic
                    | some finEvs =>
                      .ok ({ bk with
                              masterdeck_index := midx,
                              track_infos := tiCells,
                              track_trackers := trackers',
                              anlz_paths := apCells,
                              td_trackers := td_trackers',
                              master_td_tracker := mtd',
                              very_slow_update_flag := false },
                           preEvs ++ deckEvs ++ tiEvs ++ anlzEvs ++ slowEvs ++ finEvs)
          else
            match finishEvents env.modules bk.hearbeat_config.masterdeck_index
                very_slow_update masterdeck_index_changed false midx.value bk.track_infos with
            | none => .error .panic
            | some finEvs =>
              .ok ({ bk with
                      masterdeck_index := midx,
                      td_trackers := td_trackers',
                      master_td_tracker := mtd',
                      very_slow_update_flag := vs_flag },
                   preEvs ++ deckEvs ++ finEvs)
      else
        .error .panic

/-- The event list of an `update` call (empty on error), for stating
dispatch-order facts. -/
def updateEvents (bk : BeatKeeper) (env : UpdateEnv) (slow_update very_slow_update : Bool) :
    List Event :=
  match BeatKeeper.update bk env slow_update very_slow_update with
  | .ok (_, evs) => evs
  | .error _ => []

/-- A two-deck scheduler state for the dispatch-order scenario: deck 0 has a
song structure cached, every change cell is pre-set so that exactly the
literal-valued events fire. -/
def bkOrder : BeatKeeper :=
  { masterdeck_index := ⟨0⟩
    offset_samples := 0
    track_infos := List.replicate 4 ⟨TrackInfo.default⟩
    track_trackers := [⟨none, some ⟨0, [⟨1, 5⟩, ⟨9, 6⟩]⟩⟩,
                       TrackTracker.new, TrackTracker.new, TrackTracker.new]
    anlz_paths := List.replicate 4 ⟨[]⟩
    keep_warm := true
    decks := 2
    td_trackers := [⟨⟨1⟩, ⟨1⟩, ⟨1⟩, ⟨44100⟩, ⟨"x"⟩, ⟨"y"⟩, ⟨1⟩⟩,
                    ⟨⟨1⟩, ⟨1⟩, ⟨0⟩, ⟨44100⟩, ⟨""⟩, ⟨""⟩, ⟨0⟩⟩,
                    TrackingDataTracker.new, TrackingDataTracker.new]
    master_td_tracker := ⟨⟨1⟩, ⟨1⟩, ⟨1⟩, ⟨44100⟩, ⟨"x"⟩, ⟨"y"⟩, ⟨1⟩⟩
    hearbeat_config := HeartbeatConfig.allOff
    very_slow_update_flag := false }

/-- The environment of the dispatch-order scenario: master deck 0 of 2, one
module, both timing reads succeed with sample position 44100. -/
def envOrder : UpdateEnv :=
  { read_masterdeck_index := .ok 0
    read_timing_data := fun i => if i = 0 then .ok ⟨100, 44100⟩ else .ok ⟨90, 44100⟩
    get_track_infos := .ok []
    get_anlz_paths := .ok []
    deckcount := 2
    watcher_queue := []
    fs_read := fun _ => none
    parse := fun _ => none
    phrase_name := fun _ p => if p.kind = 5 then "PhraseA" else "PhraseB"
    modules := [0] }

/-- A one-deck scheduler state with fresh cells, for the zero-BPM scenario. -/
def bkZero : BeatKeeper :=
  { masterdeck_index := ⟨0⟩
    offset_samples := 0
    track_infos := List.replicate 4 ⟨TrackInfo.default⟩
    track_trackers := List.replicate 4 TrackTracker.new
    anlz_paths := List.replicate 4 ⟨[]⟩
    keep_warm := true
    decks := 1
    td_trackers := List.replicate 4 TrackingDataTracker.new
    master_td_tracker := TrackingDataTracker.new
    hearbeat_config := HeartbeatConfig.allOff
    very_slow_update_flag := false }

/-- The environment of the zero-BPM scenario: the host reports
`current_bpm = 0.0` for deck 0. -/
def envZero : UpdateEnv :=
  { read_masterdeck_index := .ok 0
    read_timing_data := fun _ => .ok ⟨0, 0⟩
    get_track_infos := .ok []
    get_anlz_paths := .ok []
    deckcount := 1
    watcher_queue := []
    fs_read := fun _ => none
    parse := fun _ => none
    phrase_name := fun _ _ => ""
    modules := [0] }

/-- The environment of the failing-timing-read scenario: every per-deck
timing read fails. -/
def envTimingErr : UpdateEnv :=
  { read_masterdeck_index := .ok 0
    read_timing_data := fun _ => .error ⟨none, 5, 3⟩
    get_track_infos := .ok []
    get_anlz_paths := .ok []
    deckcount := 2
    watcher_queue := []
    fs_read := fun _ => none
    parse := fun _ => none
    phrase_name := fun _ _ => ""
    modules := [0] }

theorem trackerCompute_eq (tt : TrackTracker) (pn : Nat → Phrase → String)
    (td0 : TimingDataRaw) (off : Int) :
    trackerCompute tt pn td0 off
      = trackerComputeAt tt pn
          (if td0.current_bpm = 0 then { td0 with current_bpm := 120 } else td0)
          (((td0.sample_position + off : Int) : ℚ) / 44100) := by
  by_cases h : td0.current_bpm = 0
  · simp [trackerCompute, h]
  · simp [trackerCompute, h]

theorem takeWhile_length_le {α : Type} (p : α → Bool) (l : List α) :
    (l.takeWhile p).length ≤ l.length := by
  induction l with
  | nil => simp
  | cons a as ih =>
    rw [List.takeWhile_cons]
    cases hp : p a
    · simp
    · simpa using ih

theorem takeWhile_getD_sat {α : Type} (p : α → Bool) (l : List α) (d : α) :
    ∀ i, i < (l.takeWhile p).length → p (l.getD i d) = true := by
  induction l with
  | nil => intro i h; simp at h
  | cons a as ih =>
    intro i h
    rw [List.takeWhile_cons] at h
    cases hp : p a with
    | false => simp [hp] at h
    | true =>
      simp only [hp, if_true, List.length_cons] at h
      cases i with
      | zero => simpa using hp
      | succ j => simpa using ih j (by omega)

theorem takeWhile_getD_fail {α : Type} (p : α → Bool) (l : List α) (d : α)
    (h : (l.takeWhile p).length < l.length) :
    p (l.getD (l.takeWhile p).length d) = false := by
  induction l with
  | nil => simp at h
  | cons a as ih =>
    rw [List.takeWhile_cons] at h ⊢
    cases hp : p a with
    | false => simpa using hp
    | true =>
      simp only [hp, if_true, List.length_cons] at h ⊢
      simpa using ih (by omega)

/-- In a beat grid sorted strictly increasing in `time`, the linear scan of
`TrackTracker::update` (count the prefix of beats earlier than `t`, saturating
minus one) lands on exactly the spec's "largest index with time < t, clamped
to 0". -/
theorem scan_eq_specGridIdx (beats : List GridBeat) (t : ℚ)
    (hs : beats.Pairwise (fun a b => a.time < b.time)) (hne : beats ≠ []) :
    specGridIdx beats t = gridScanIdx beats t := by
  rw [gridScanIdx]
  set p : GridBeat → Bool := fun gb => decide ((gb.time : ℚ) / 1000 < t) with hp
  set k := (beats.takeWhile p).length with hkdef
  have hk : k ≤ beats.length := takeWhile_length_le p beats
  have hlen : 0 < beats.length := List.length_pos.mpr hne
  have hfail : ∀ j, k ≤ j → j < beats.length →
      ¬ ((beats.getD j defaultGridBeat).time : ℚ) / 1000 < t := by
    intro j hkj hjlen
    have hklen : k < beats.length := lt_of_le_of_lt hkj hjlen
    have h0 : p (beats.getD k defaultGridBeat) = false := takeWhile_getD_fail p beats _ hklen
    have h0' : ¬ ((beats.getD k defaultGridBeat).time : ℚ) / 1000 < t := by
      simpa [hp] using h0
    rcases eq_or_lt_of_le hkj with heq | hlt
    · simpa [heq] using h0'
    · have hmono : (beats.getD k defaultGridBeat).time < (beats.getD j defaultGridBeat).time := by
        rw [List.getD_eq_getElem _ _ hklen, List.getD_eq_getElem _ _ hjlen]
        exact List.pairwise_iff_getElem.mp hs k j hklen hjlen hlt
      intro hcon
      apply h0'
      refine lt_of_le_of_lt ?_ hcon
      have : ((beats.getD k defaultGridBeat).time : ℚ) ≤ ((beats.getD j defaultGridBeat).time : ℚ) := by
        exact_mod_cast le_of_lt hmono
      exact (div_le_div_iff_of_pos_right (by norm_num)).mpr this
  rcases Nat.eq_zero_or_pos k with hk0 | hkpos
  · rw [specGridIdx, hk0]
    rw [Nat.findGreatest_eq_iff]
    refine ⟨Nat.zero_le _, by simp, ?_⟩
    intro j hj0 hjle
    exact hfail j (hk0 ▸ Nat.zero_le j) (by omega)
  · rw [specGridIdx]
    rw [Nat.findGreatest_eq_iff]
    refine ⟨by omega, ?_, ?_⟩
    · intro _
      have := takeWhile_getD_sat p beats defaultGridBeat (k - 1) (by omega)
      simpa [hp] using this
    · intro j hjgt hjle
      exact hfail j (by omega) (by omega)

theorem phrasePart_beat_fields (tt : TrackTracker) (pn : Nat → Phrase → String)
    (td : TimingDataRaw) (bidx : Nat) (beat obpm : ℚ) (res : TrackTrackerResult)
    (h : phrasePart tt pn td bidx beat obpm = some res) :
    res.beat = beat ∧ res.original_bpm = obpm ∧ res.timing_data_raw = td := by
  unfold phrasePart at h
  split at h
  · simp at h
    simp [← h]
  · dsimp only at h
    split at h
    · simp at h
    · split at h
      · simp at h
        simp [← h]
      · simp at h
        simp [← h]

/-- With a beat grid present and sorted, a completed `trackerComputeAt`
derives the beat and original BPM from the spec's grid index. -/
theorem trackerComputeAt_grid_formula (grid : BeatGrid) (ss : Option SongStructureData)
    (pn : Nat → Phrase → String) (td : TimingDataRaw) (t : ℚ)
    (res : TrackTrackerResult)
    (hs : grid.beats.Pairwise (fun a b => a.time < b.time))
    (hres : trackerComputeAt ⟨some grid, ss⟩ pn td t = some res) :
    res.original_bpm
        = ((grid.beats.getD (specGridIdx grid.beats t) defaultGridBeat).tempo : ℚ) / 100
      ∧ res.beat
        = ((((grid.beats.getD (specGridIdx grid.beats t) defaultGridBeat).beat_number + 3) % 4 : Nat) : ℚ)
          + (t - ((grid.beats.getD (specGridIdx grid.beats t) defaultGridBeat).time : ℚ) / 1000)
            / (60 / (((grid.beats.getD (specGridIdx grid.beats t) defaultGridBeat).tempo : ℚ) / 100)) := by
  unfold trackerComputeAt at hres
  dsimp only at hres
  rcases hget : grid.beats.get? (gridScanIdx grid.beats t) with _ | gb
  · rw [hget] at hres
    simp at hres
  · rw [hget] at hres
    have hne : grid.beats ≠ [] := by
      intro hnil
      rw [hnil] at hget
      simp at hget
    have hidx : specGridIdx grid.beats t = gridScanIdx grid.beats t :=
      scan_eq_specGridIdx grid.beats t hs hne
    have hgd : grid.beats.getD (gridScanIdx grid.beats t) defaultGridBeat = gb := by
      rcases List.get?_eq_some.mp hget with ⟨h1, h2⟩
      rw [List.getD_eq_getElem _ _ h1]
      simpa using h2
    obtain ⟨hb, hob, _⟩ := phrasePart_beat_fields _ _ _ _ _ _ _ hres
    rw [hidx, hgd]
    constructor
    · rw [hob]
    · rw [hb]
      congr 1
      congr 1
      rw [one_div, inv_div]

/-- C1: with a beat grid present (sorted strictly increasing in time, per the
beat-grid invariant), any completed call of `TrackTracker::update` derives
`beat = b_phase + remainder / seconds_per_beat` and
`original_bpm = grid[i].tempo_centibpm / 100`, where `i` is the largest index
with `grid[i].time_ms/1000 < t_now` clamped to `0`,
`remainder = t_now - grid[i].time_ms/1000`,
`seconds_per_beat = 60 / original_bpm`, and
`b_phase = (grid[i].beat_number + 3) mod 4`. -/
theorem c1_beat_formula (grid : BeatGrid) (ss : Option SongStructureData)
    (pn : Nat → Phrase → String) (td0 : TimingDataRaw) (off : Int)
    (res : TrackTrackerResult)
    (hs : grid.beats.Pairwise (fun a b => a.time < b.time))
    (hres : trackerCompute ⟨some grid, ss⟩ pn td0 off = some res) :
    res.original_bpm
        = ((grid.beats.getD (specGridIdx grid.beats
            (((td0.sample_position + off : Int) : ℚ) / 44100)) defaultGridBeat).tempo : ℚ) / 100
      ∧ res.beat
        = ((((grid.beats.getD (specGridIdx grid.beats
              (((td0.sample_position + off : Int) : ℚ) / 44100)) defaultGridBeat).beat_number + 3) % 4 : Nat) : ℚ)
          + ((((td0.sample_position + off : Int) : ℚ) / 44100)
              - ((grid.beats.getD (specGridIdx grid.beats
                  (((td0.sample_position + off : Int) : ℚ) / 44100)) defaultGridBeat).time : ℚ) / 1000)
            / (60 / (((grid.beats.getD (specGridIdx grid.beats
                  (((td0.sample_position + off : Int) : ℚ) / 44100)) defaultGridBeat).tempo : ℚ) / 100)) := by
  rw [trackerCompute_eq] at hres
  exact trackerComputeAt_grid_formula grid ss pn _ _ res hs hres

/-- C1 witness: the single grid beat `beat_number 3, 12000 centibpm, 1000 ms`
with `sample_position 66150` and zero delay yields `beat = 3.0` and
`original_bpm = 120.0`, matching the formula instantiated through
`c1_beat_formula`. -/
theorem c1_beat_formula_witness :
    ∃ res, trackerCompute ⟨some ⟨[⟨3, 12000, 1000⟩]⟩, none⟩ (fun _ _ => "") ⟨0, 66150⟩ 0
        = some res
      ∧ res.beat = 3 ∧ res.original_bpm = 120 := by
  have hres : trackerCompute ⟨some ⟨[⟨3, 12000, 1000⟩]⟩, none⟩ (fun _ _ => "") ⟨0, 66150⟩ 0
      = some ⟨3, 120, ⟨120, 66150⟩, "", "", 0⟩ := by
    norm_num [trackerCompute, trackerComputeAt, gridScanIdx, phrasePart, List.takeWhile]
  have hmain := c1_beat_formula ⟨[⟨3, 12000, 1000⟩]⟩ none (fun _ _ => "") ⟨0, 66150⟩ 0
      ⟨3, 120, ⟨120, 66150⟩, "", "", 0⟩ (by simp) hres
  refine ⟨_, hres, ?_, ?_⟩
  · rw [hmain.2]
    norm_num [specGridIdx, Nat.findGreatest]
  · rw [hmain.1]
    norm_num [specGridIdx, Nat.findGreatest]

theorem phrasePart_isSome (tt : TrackTracker) (pn : Nat → Phrase → String)
    (td : TimingDataRaw) (bidx : Nat) (beat obpm : ℚ)
    (hs : ∀ s, tt.songstructure = some s → s.phrases ≠ []) :
    (phrasePart tt pn td bidx beat obpm).isSome := by
  obtain ⟨bg, ssf⟩ := tt
  unfold phrasePart
  cases ssf with
  | none => simp
  | some ss =>
    have hne : ss.phrases ≠ [] := hs ss rfl
    have hlen : 0 < ss.phrases.length := List.length_pos.mpr hne
    have hcnt := takeWhile_length_le (fun p => !decide (p.beat > bidx + 1)) ss.phrases
    dsimp only
    rcases hget : ss.phrases.get?
        ((List.takeWhile (fun p => !decide (p.beat > bidx + 1)) ss.phrases).length - 1) with _ | cur
    · exfalso
      have := List.get?_eq_none.mp hget
      omega
    · dsimp only
      split <;> simp

theorem gridScan_get_isSome (beats : List GridBeat) (t : ℚ) (hne : beats ≠ []) :
    (beats.get? (gridScanIdx beats t)).isSome := by
  have hlen : 0 < beats.length := List.length_pos.mpr hne
  have hcnt := takeWhile_length_le (fun gb => decide ((gb.time : ℚ) / 1000 < t)) beats
  rcases hget : beats.get? (gridScanIdx beats t) with _ | gb
  · have := List.get?_eq_none.mp hget
    unfold gridScanIdx at this
    omega
  · simp

theorem trackerComputeAt_isSome (tt : TrackTracker) (pn : Nat → Phrase → String)
    (td : TimingDataRaw) (t : ℚ)
    (hg : ∀ g, tt.beatgrid = some g → g.beats ≠ [])
    (hs : ∀ s, tt.songstructure = some s → s.phrases ≠ []) :
    (trackerComputeAt tt pn td t).isSome := by
  obtain ⟨bgf, ssf⟩ := tt
  unfold trackerComputeAt
  cases bgf with
  | none => exact phrasePart_isSome ⟨none, ssf⟩ pn _ 0 0 120 (by simpa using hs)
  | some g =>
    have hne : g.beats ≠ [] := hg g rfl
    dsimp only
    rcases hget : g.beats.get? (gridScanIdx g.beats t) with _ | gb
    · have := gridScan_get_isSome g.beats t hne
      rw [hget] at this
      simp at this
    · exact phrasePart_isSome ⟨some g, ssf⟩ pn _ _ _ _ (by simpa using hs)

/-- C10: `TrackTracker::update` never indexes out of bounds provided every
cached beat grid has at least one beat and every cached song structure has at
least one phrase; and dropping the precondition, the clamped index `0` is out
of bounds on an empty beat grid or an empty phrase list (the embedding returns
`none` where the Rust code panics). -/
theorem c10_tracker_index_safety (tt : TrackTracker) (pn : Nat → Phrase → String)
    (td0 : TimingDataRaw) (off : Int)
    (hg : ∀ g, tt.beatgrid = some g → g.beats ≠ [])
    (hs : ∀ s, tt.songstructure = some s → s.phrases ≠ []) :
    (trackerCompute tt pn td0 off).isSome
    ∧ (∀ pn' td' off', trackerCompute ⟨some ⟨[]⟩, none⟩ pn' td' off' = none)
    ∧ (∀ pn' td' off', trackerCompute ⟨none, some ⟨0, []⟩⟩ pn' td' off' = none) := by
  refine ⟨?_, ?_, ?_⟩
  · rw [trackerCompute_eq]
    exact trackerComputeAt_isSome tt pn _ _ hg hs
  · intro pn' td' off'
    simp [trackerCompute, trackerComputeAt, gridScanIdx]
  · intro pn' td' off'
    simp [trackerCompute, trackerComputeAt, phrasePart]

/-- C10 witness: a one-beat grid and one-phrase structure satisfy the
preconditions, and the update completes. -/
theorem c10_tracker_index_safety_witness :
    (trackerCompute ⟨some ⟨[⟨1, 12000, 0⟩]⟩, some ⟨0, [⟨1, 5⟩]⟩⟩ (fun _ _ => "") ⟨0, 0⟩ 0).isSome
    ∧ (∀ pn' td' off', trackerCompute ⟨some ⟨[]⟩, none⟩ pn' td' off' = none)
    ∧ (∀ pn' td' off', trackerCompute ⟨none, some ⟨0, []⟩⟩ pn' td' off' = none) :=
  c10_tracker_index_safety ⟨some ⟨[⟨1, 12000, 0⟩]⟩, some ⟨0, [⟨1, 5⟩]⟩⟩ (fun _ _ => "") ⟨0, 0⟩ 0
    (by intro g hgeq; simp at hgeq; simp [← hgeq])
    (by intro s hseq; simp at hseq; simp [← hseq])

/-- C7: `ChangeTrackedValue::set` returns `true` exactly when the new value
differs from the stored one, afterwards the cell holds the new value, and an
immediately repeated `set` of the same value returns `false`. -/
theorem c7_change_tracked_set {T : Type} [DecidableEq T]
    (c : ChangeTrackedValue T) (v : T) :
    ((c.set v).1 = true ↔ v ≠ c.value)
    ∧ (c.set v).2.value = v
    ∧ ((c.set v).2.set v).1 = false := by
  unfold ChangeTrackedValue.set
  by_cases h : c.value = v
  · simp [h]
  · simp [h, Ne.symm h]

/-- C7 witness: a fresh cell holding `0` and the distinct value `1`: the first
`set 1` returns `true`, stores `1`, and the repeated `set 1` returns `false`. -/
theorem c7_change_tracked_set_witness :
    (((⟨0⟩ : ChangeTrackedValue Nat).set 1).1 = true)
    ∧ ((⟨0⟩ : ChangeTrackedValue Nat).set 1).2.value = 1
    ∧ (((⟨0⟩ : ChangeTrackedValue Nat).set 1).2.set 1).1 = false :=
  ⟨(c7_change_tracked_set ⟨0⟩ 1).1.mpr (by decide),
   (c7_change_tracked_set ⟨0⟩ 1).2.1,
   (c7_change_tracked_set ⟨0⟩ 1).2.2⟩

/-- C8 counterexample: the buffer `[0xFF]` is not valid UTF-8, yet the
track-info result seen downstream is three empty strings — no field holds the
literal `"ERR"` (the intermediate `"ERR"` text contains no `": "`, so every
extracted value is empty). -/
theorem c8_err_counterexample :
    get_track_info [255] = ⟨[], [], []⟩
    ∧ (get_track_info [255]).title ≠ errBytes
    ∧ (get_track_info [255]).artist ≠ errBytes
    ∧ (get_track_info [255]).album ≠ errBytes := by
  decide

/-- C8 (amended): when the NUL-truncated buffer is not valid UTF-8 the decode
substitutes the intermediate text `"ERR"`, whose lines contain no `": "`, so
the resulting track info is three empty strings; on valid UTF-8 the value
after the first `": "` of each of the first three lines becomes title, artist
and album (shown on the text `"title: A\nartist: B\nalbum: C"`). -/
theorem c8_track_info_decode (buffer : List Nat)
    (hinv : utf8Valid (buffer.takeWhile (fun x => x ≠ 0)) = false) :
    get_track_info buffer = ⟨[], [], []⟩
    ∧ get_track_info
        [116, 105, 116, 108, 101, 58, 32, 65, 10,
         97, 114, 116, 105, 115, 116, 58, 32, 66, 10,
         97, 108, 98, 117, 109, 58, 32, 67]
      = ⟨[65], [66], [67]⟩ := by
  constructor
  · have hdec : decodeOrErr (buffer.takeWhile (fun x => x ≠ 0)) = errBytes := by
      rw [decodeOrErr, hinv]
      rfl
    unfold get_track_info
    dsimp only
    rw [hdec]
    decide
  · decide

/-- C8 witness: the buffer `[0xFF]` satisfies the invalid-UTF-8 hypothesis. -/
theorem c8_track_info_decode_witness :
    get_track_info [255] = ⟨[], [], []⟩
    ∧ get_track_info
        [116, 105, 116, 108, 101, 58, 32, 65, 10,
         97, 114, 116, 105, 115, 116, 58, 32, 66, 10,
         97, 108, 98, 117, 109, 58, 32, 67]
      = ⟨[65], [66], [67]⟩ :=
  c8_track_info_decode [255] (by decide)

/-- C4 counterexample: a host-reported path stored with backslash separators
(`C:\Users\x\A.DAT`, whose byte decode keeps byte 92 verbatim) does not match
the watcher event path `C:/Users/x/A.DAT`, so no deck's ANLZ-file-updated flag
is set. -/
theorem c4_normalization_counterexample :
    watcherEventDeck ["C:\\Users\\x\\A.DAT".data] "C:/Users/x/A.DAT".data = none
    ∧ get_anlz_path [67, 58, 92, 85, 115, 101, 114, 115, 92, 120, 92, 65, 46, 68, 65, 84]
      = [67, 58, 92, 85, 115, 101, 114, 115, 92, 120, 92, 65, 46, 68, 65, 84] := by
  decide

/-- C4 (amended): only filesystem-watcher event paths are normalized `\ → /`
before comparison; host-reported paths are decoded and compared verbatim.  A
backslashed watcher event path therefore matches a stored forward-slash path
(directly and through the `.EXT` sibling), while a backslashed stored path
matches nothing. -/
theorem c4_watcher_normalization :
    watcherEventDeck ["C:/Users/x/A.DAT".data] "C:\\Users\\x\\A.DAT".data = some 0
    ∧ watcherEventDeck ["C:/Users/x/A.DAT".data] "C:/Users/x/A.DAT".data = some 0
    ∧ watcherEventDeck ["C:/Users/x/A.DAT".data] "C:\\Users\\x\\A.EXT".data = some 0 := by
  decide

/-- C9: with `keeper.decks` absent from the configuration, the deck loop bound
defaults to 4 and `keep_warm` to true while the snapshot's per-deck vectors
are built with the separate default of 2, so the loop passes deck index 2 to
`Rekordbox::read_timing_data`, which indexes `sample_positions[2]` out of
bounds (the embedding returns `none` where the Rust code panics). -/
theorem c9_deck_bounds_mismatch :
    bkDecks emptyConfig = 4
    ∧ rbDecksArg emptyConfig = 2
    ∧ bkKeepWarm emptyConfig = true
    ∧ 2 ∈ processedDecks (bkDecks emptyConfig) (bkKeepWarm emptyConfig) 0
    ∧ Rekordbox.read_timing_data (mkRekordboxVecs (rbDecksArg emptyConfig)) 2 = none := by
  decide

/-- C5 counterexample: with a cached grid and song structure, a reload whose
`.DAT` parses to a new grid but whose `.EXT` read fails leaves the cache
half-updated: the beat grid is the new one, not the pre-tick one. -/
theorem c5_counterexample :
    reloadAnlz
        (fun p => if p = "B.DAT".data then some [0] else none)
        (fun _ => some ⟨[⟨AnlzContent.BeatGrid ⟨[⟨2, 2, 2⟩]⟩⟩]⟩)
        "B.DAT".data
        ⟨some ⟨[⟨1, 1, 1⟩]⟩, some ⟨0, [⟨1, 1⟩]⟩⟩
      = ⟨some ⟨[⟨2, 2, 2⟩]⟩, some ⟨0, [⟨1, 1⟩]⟩⟩
    ∧ (some (⟨[⟨2, 2, 2⟩]⟩ : BeatGrid) ≠ some (⟨[⟨1, 1, 1⟩]⟩ : BeatGrid))
    ∧ (fun p => if p = "B.DAT".data then some [0] else none)
        (replaceList "B.DAT".data datChars extChars) = (none : Option (List Nat)) := by
  refine ⟨by decide, by decide, by decide⟩

theorem applyDatSections_songstructure (sections : List AnlzSection) :
    ∀ tt : TrackTracker, (applyDatSections tt sections).songstructure = tt.songstructure := by
  induction sections with
  | nil => intro tt; rfl
  | cons s rest ih =>
    intro tt
    simp only [applyDatSections, List.foldl_cons] at ih ⊢
    rcases s with ⟨c⟩
    cases c <;> simp [ih]

/-- C5 (amended): a `.DAT` read or parse failure aborts the deck's ANLZ update
atomically (both caches keep their pre-tick contents), but after a successful
`.DAT` parse the beat-grid cache is already updated, so a subsequent `.EXT`
read or parse failure preserves only the song-structure cache. -/
theorem c5_reload_partial_atomicity (fs_read : List Char → Option (List Nat))
    (parse : List Nat → Option ANLZ) (path : List Char) (tt : TrackTracker) :
    (fs_read path = none → reloadAnlz fs_read parse path tt = tt)
    ∧ (∀ bytes, fs_read path = some bytes → parse bytes = none →
        reloadAnlz fs_read parse path tt = tt)
    ∧ (∀ bytes anlz, fs_read path = some bytes → parse bytes = some anlz →
        fs_read (replaceList path datChars extChars) = none →
        (reloadAnlz fs_read parse path tt).songstructure = tt.songstructure)
    ∧ (∀ bytes anlz bytes2, fs_read path = some bytes → parse bytes = some anlz →
        fs_read (replaceList path datChars extChars) = some bytes2 →
        parse bytes2 = none →
        (reloadAnlz fs_read parse path tt).songstructure = tt.songstructure) := by
  refine ⟨?_, ?_, ?_, ?_⟩
  · intro h
    rw [reloadAnlz, h]
  · intro bytes h1 h2
    simp only [reloadAnlz, h1, h2]
  · intro bytes anlz h1 h2 h3
    simp only [reloadAnlz, h1, h2, h3]
    exact applyDatSections_songstructure anlz.sections tt
  · intro bytes anlz bytes2 h1 h2 h3 h4
    simp only [reloadAnlz, h1, h2, h3, h4]
    exact applyDatSections_songstructure anlz.sections tt

/-- C5 witness: the concrete half-failing reload instantiates the amended
theorem's `.EXT`-read-failure clause, preserving the song structure. -/
theorem c5_reload_partial_atomicity_witness :
    (reloadAnlz
        (fun p => if p = "B.DAT".data then some [0] else none)
        (fun _ => some ⟨[⟨AnlzContent.BeatGrid ⟨[⟨2, 2, 2⟩]⟩⟩]⟩)
        "B.DAT".data
        ⟨some ⟨[⟨1, 1, 1⟩]⟩, some ⟨0, [⟨1, 1⟩]⟩⟩).songstructure
      = some ⟨0, [⟨1, 1⟩]⟩ :=
  (c5_reload_partial_atomicity
      (fun p => if p = "B.DAT".data then some [0] else none)
      (fun _ => some ⟨[⟨AnlzContent.BeatGrid ⟨[⟨2, 2, 2⟩]⟩⟩]⟩)
      "B.DAT".data
      ⟨some ⟨[⟨1, 1, 1⟩]⟩, some ⟨0, [⟨1, 1⟩]⟩⟩).2.2.1
    [0] ⟨[⟨AnlzContent.BeatGrid ⟨[⟨2, 2, 2⟩]⟩⟩]⟩ (by decide) (by decide) (by decide)

theorem set_snd_value {T : Type} [DecidableEq T] (c : ChangeTrackedValue T) (v : T) :
    (c.set v).2.value = v := by
  unfold ChangeTrackedValue.set
  by_cases h : c.value = v
  · simp [h]
  · simp [h]

theorem trackerComputeAt_raw (tt : TrackTracker) (pn : Nat → Phrase → String)
    (td : TimingDataRaw) (t : ℚ) (res : TrackTrackerResult)
    (h : trackerComputeAt tt pn td t = some res) : res.timing_data_raw = td := by
  obtain ⟨bgf, ssf⟩ := tt
  unfold trackerComputeAt at h
  cases bgf with
  | none => exact (phrasePart_beat_fields _ _ _ _ _ _ _ h).2.2
  | some g =>
    dsimp only at h
    rcases hget : g.beats.get? (gridScanIdx g.beats t) with _ | gb
    · rw [hget] at h
      simp at h
    · rw [hget] at h
      exact (phrasePart_beat_fields _ _ _ _ _ _ _ h).2.2

/-- C2 counterexample: with the host reporting `current_bpm = 0.0` for the
master deck, the tick dispatches `bpm_changed`/`bpm_changed_master` carrying
the coerced value `120.0` — the raw `0.0` is never dispatched. -/
theorem c2_counterexample :
    envZero.read_timing_data 0 = .ok ⟨0, 0⟩
    ∧ updateEvents bkZero envZero false false
      = [Event.pre_update 0, Event.bpm_changed 0 120 0, Event.original_bpm_changed 0 120 0,
         Event.bpm_changed_master 0 120, Event.original_bpm_changed_master 0 120]
    ∧ Event.bpm_changed 0 0 0 ∉ updateEvents bkZero envZero false false
    ∧ Event.bpm_changed_master 0 0 ∉ updateEvents bkZero envZero false false := by
  decide

/-- C2 (amended): a zero host BPM is coerced to 120.0 before the result record
is built, so the coerced 120.0 — not the raw 0.0 — is both used downstream and
dispatched to modules through `bpm_changed`, as the zero-BPM scenario's
dispatched event shows. -/
theorem c2_bpm_coercion (tt : TrackTracker) (pn : Nat → Phrase → String)
    (td0 : TimingDataRaw) (off : Int) (res : TrackTrackerResult)
    (h0 : td0.current_bpm = 0)
    (hres : trackerCompute tt pn td0 off = some res) :
    res.timing_data_raw.current_bpm = 120
    ∧ Event.bpm_changed 0 120 0 ∈ updateEvents bkZero envZero false false := by
  constructor
  · rw [trackerCompute_eq, if_pos h0] at hres
    rw [trackerComputeAt_raw _ _ _ _ _ hres]
  · decide

/-- C2 witness: the zero-BPM read `⟨0, 0⟩` on a fresh tracker yields the
result with `timing_data_raw.current_bpm = 120`. -/
theorem c2_bpm_coercion_witness :
    (⟨0, 120, ⟨120, 0⟩, "", "", 0⟩ : TrackTrackerResult).timing_data_raw.current_bpm = 120
    ∧ Event.bpm_changed 0 120 0 ∈ updateEvents bkZero envZero false false :=
  c2_bpm_coercion TrackTracker.new (fun _ _ => "") ⟨0, 0⟩ 0 ⟨0, 120, ⟨120, 0⟩, "", "", 0⟩
    (by decide) (by decide)

/-- C3 counterexample: with every per-deck timing read failing (and the
master-index read succeeding), `update` completes the tick and returns `Ok`
instead of propagating the read error. -/
theorem c3_counterexample :
    envTimingErr.read_timing_data 0 = .error ⟨none, 5, 3⟩
    ∧ (BeatKeeper.update bkOrder envTimingErr false false).toOption.isSome = true := by
  decide

theorem processDeck_read_err (env : UpdateEnv) (hb : HeartbeatConfig)
    (vs kw : Bool) (off : Int) (master i : Nat) (tt : TrackTracker)
    (td mtd : TrackingDataTracker) (e : ReadError)
    (he : env.read_timing_data i = .error e) :
    processDeck env hb vs kw off master i tt td mtd = .ok (td, mtd, []) := by
  unfold processDeck
  dsimp only
  rw [he]
  by_cases hc : i = master ∨ kw = true
  · rw [if_pos hc]
  · rw [if_neg hc]

theorem deckLoop_all_err (env : UpdateEnv) (hb : HeartbeatConfig)
    (vs kw : Bool) (off : Int) (master : Nat)
    (herr : ∀ i, ∃ e, env.read_timing_data i = .error e) :
    ∀ (triples : List (Nat × TrackTracker × TrackingDataTracker)) (mtd : TrackingDataTracker),
      deckLoop env hb vs kw off master triples mtd
        = .ok (triples.map (fun x => x.2.2), mtd, []) := by
  intro triples
  induction triples with
  | nil => intro mtd; rfl
  | cons x rest ih =>
    intro mtd
    obtain ⟨i, tt, td⟩ := x
    obtain ⟨e, he⟩ := herr i
    rw [deckLoop, processDeck_read_err env hb vs kw off master i tt td mtd e he]
    dsimp only
    rw [ih mtd]
    simp

theorem finishEvents_isSome (modules : List Nat) (hb vs mdic mtc : Bool)
    (master : Nat) (tiCells : List (ChangeTrackedValue TrackInfo))
    (h : master < tiCells.length) :
    (finishEvents modules hb vs mdic mtc master tiCells).isSome := by
  unfold finishEvents
  dsimp only
  split
  · rcases hget : tiCells.get? master with _ | c
    · exfalso
      have := List.get?_eq_none.mp hget
      omega
    · simp
  · simp

theorem trackInfosLoop_some (modules : List Nat) (hb : Bool) (master : Nat) :
    ∀ (infos : List TrackInfo) (i : Nat) (cells : List (ChangeTrackedValue TrackInfo)) (mtc : Bool),
      i + infos.length ≤ cells.length →
      ∃ out, trackInfosLoop modules hb master i infos cells mtc = some out := by
  intro infos
  induction infos with
  | nil =>
    intro i cells mtc h
    exact ⟨_, rfl⟩
  | cons track rest ih =>
    intro i cells mtc h
    rw [trackInfosLoop]
    rcases hget : cells.get? i with _ | c
    · exfalso
      have := List.get?_eq_none.mp hget
      simp only [List.length_cons] at h
      omega
    · dsimp only
      obtain ⟨out, hout⟩ := ih (i + 1) (cells.set i (c.set track).2)
        (if ((c.set track).1 || hb) = true then mtc || decide (master = i) else mtc)
        (by simp only [List.length_set, List.length_cons] at h ⊢; omega)
      rw [hout]
      exact ⟨_, rfl⟩

/-- C3 (amended): a failing master-index read propagates out of `update`, and
on slow ticks so do failing track-info reads and failing ANLZ-path reads; but
a failing per-deck timing read does not propagate — the deck is skipped and
the tick completes `Ok`. -/
theorem c3_error_propagation (bk : BeatKeeper) (env : UpdateEnv) (e : ReadError) (m : Nat)
    (hm : env.read_masterdeck_index = .ok m)
    (herr : ∀ i, ∃ e', env.read_timing_data i = .error e')
    (hlen1 : bk.decks ≤ bk.track_trackers.length)
    (hlen2 : bk.decks ≤ bk.td_trackers.length)
    (hmrange : m < env.deckcount)
    (hti : m < bk.track_infos.length) :
    (∀ env' : UpdateEnv, env'.read_masterdeck_index = .error e →
      ∀ s vs, BeatKeeper.update bk env' s vs = .error (.read e))
    ∧ (∀ vs, ∃ r, BeatKeeper.update bk env false vs = .ok r)
    ∧ (∀ vs, env.get_track_infos = .error e →
        BeatKeeper.update bk env true vs = .error (.read e))
    ∧ (∀ vs infos, env.get_track_infos = .ok infos →
        infos.length ≤ bk.track_infos.length →
        env.get_anlz_paths = .error e →
        BeatKeeper.update bk env true vs = .error (.read e)) := by
  refine ⟨?_, ?_, ?_, ?_⟩
  · intro env' h s vs
    rw [BeatKeeper.update, h]
  · intro vs
    rw [BeatKeeper.update, hm]
    dsimp only
    rw [set_snd_value]
    rw [if_neg (by omega)]
    rw [if_pos ⟨hlen1, hlen2⟩]
    rw [deckLoop_all_err env bk.hearbeat_config vs bk.keep_warm bk.offset_samples m herr]
    dsimp only
    rw [if_neg Bool.false_ne_true]
    rcases hfin : finishEvents env.modules bk.hearbeat_config.masterdeck_index vs
        (bk.masterdeck_index.set m).1 false m bk.track_infos with _ | finEvs
    · exfalso
      have := finishEvents_isSome env.modules bk.hearbeat_config.masterdeck_index vs
        (bk.masterdeck_index.set m).1 false m bk.track_infos hti
      rw [hfin] at this
      simp at this
    · exact ⟨_, rfl⟩
  · intro vs hinfo
    rw [BeatKeeper.update, hm]
    dsimp only
    rw [set_snd_value]
    rw [if_neg (by omega)]
    rw [if_pos ⟨hlen1, hlen2⟩]
    rw [deckLoop_all_err env bk.hearbeat_config vs bk.keep_warm bk.offset_samples m herr]
    dsimp only
    rw [if_pos rfl, hinfo]
  · intro vs infos hinfos hleninfos hpaths
    rw [BeatKeeper.update, hm]
    dsimp only
    rw [set_snd_value]
    rw [if_neg (by omega)]
    rw [if_pos ⟨hlen1, hlen2⟩]
    rw [deckLoop_all_err env bk.hearbeat_config vs bk.keep_warm bk.offset_samples m herr]
    dsimp only
    rw [if_pos rfl, hinfos]
    dsimp only
    obtain ⟨out, hout⟩ := trackInfosLoop_some env.modules
      ((if vs = true then true else bk.very_slow_update_flag) && bk.hearbeat_config.track_info)
      m infos 0 bk.track_infos false (by omega)
    rw [hout]
    dsimp only
    rw [hpaths]

/-- C3 witness: the concrete all-decks-failing environment instantiates the
amended theorem: master-read failure propagates, the fast tick completes `Ok`
despite the deck-0 read error, and a slow tick propagates a track-info read
failure as well as an ANLZ-path read failure. -/
theorem c3_error_propagation_witness :
    (BeatKeeper.update bkOrder
        { envTimingErr with read_masterdeck_index := .error ⟨none, 7, 1⟩ } false false
      = .error (.read ⟨none, 7, 1⟩))
    ∧ (∃ r, BeatKeeper.update bkOrder envTimingErr false false = .ok r)
    ∧ (BeatKeeper.update bkOrder
        { envTimingErr with get_track_infos := .error ⟨none, 8, 2⟩ } true false
      = .error (.read ⟨none, 8, 2⟩))
    ∧ (BeatKeeper.update bkOrder
        { envTimingErr with get_anlz_paths := .error ⟨none, 9, 2⟩ } true false
      = .error (.read ⟨none, 9, 2⟩)) := by
  have h1 := c3_error_propagation bkOrder envTimingErr ⟨none, 7, 1⟩ 0
    (by decide) (fun i => ⟨⟨none, 5, 3⟩, rfl⟩) (by decide) (by decide) (by decide) (by decide)
  have h2 := c3_error_propagation bkOrder
    { envTimingErr with get_track_infos := .error ⟨none, 8, 2⟩ } ⟨none, 8, 2⟩ 0
    (by decide) (fun i => ⟨⟨none, 5, 3⟩, rfl⟩) (by decide) (by decide) (by decide) (by decide)
  have h3 := c3_error_propagation bkOrder
    { envTimingErr with get_anlz_paths := .error ⟨none, 9, 2⟩ } ⟨none, 9, 2⟩ 0
    (by decide) (fun i => ⟨⟨none, 5, 3⟩, rfl⟩) (by decide) (by decide) (by decide) (by decide)
  exact ⟨h1.1 _ rfl false false, h1.2.1 false, h2.2.2.1 false rfl,
         h3.2.2.2 false [] rfl (by decide) rfl⟩

/-- C6 counterexample: in a concrete two-deck tick, deck 0's `beat_update`
fires before its `bpm_changed` (the claim's field order says bpm first), and
the master-channel mirrors fire before deck 1's per-deck events (the claim
says all per-deck events precede the master mirrors). -/
theorem c6_dispatch_order_counterexample :
    updateEvents bkOrder envOrder false false
      = [Event.pre_update 0,
         Event.beat_update 0 0 0, Event.bpm_changed 0 100 0,
         Event.original_bpm_changed 0 120 0, Event.phrase_changed 0 "PhraseA" 0,
         Event.next_phrase_changed 0 "PhraseB" 0, Event.next_phrase_in 0 8 0,
         Event.beat_update_master 0 0, Event.bpm_changed_master 0 100,
         Event.original_bpm_changed_master 0 120, Event.phrase_changed_master 0 "PhraseA",
         Event.next_phrase_changed_master 0 "PhraseB", Event.next_phrase_in_master 0 8,
         Event.bpm_changed 0 90 1, Event.original_bpm_changed 0 120 1]
    ∧ (updateEvents bkOrder envOrder false false).indexOf (Event.beat_update 0 0 0)
        < (updateEvents bkOrder envOrder false false).indexOf (Event.bpm_changed 0 100 0)
    ∧ (updateEvents bkOrder envOrder false false).indexOf (Event.beat_update_master 0 0)
        < (updateEvents bkOrder envOrder false false).indexOf (Event.bpm_changed 0 90 1) := by
  decide

theorem ite_singleton_sublist {α : Type} (p : Prop) [Decidable p] (a : α) :
    (if p then [a] else []).Sublist [a] := by
  split
  · exact List.Sublist.refl _
  · exact List.nil_sublist _

theorem ite_chain_sublist {α : Type} (p1 p2 p3 p4 p5 p6 p7 : Prop)
    [Decidable p1] [Decidable p2] [Decidable p3] [Decidable p4]
    [Decidable p5] [Decidable p6] [Decidable p7]
    (a1 a2 a3 a4 a5 a6 a7 : α) :
    ((if p1 then [a1] else []) ++ (if p2 then [a2] else []) ++ (if p3 then [a3] else [])
      ++ (if p4 then [a4] else []) ++ (if p5 then [a5] else []) ++ (if p6 then [a6] else [])
      ++ (if p7 then [a7] else [])).Sublist [a1, a2, a3, a4, a5, a6, a7] := by
  have h : [a1, a2, a3, a4, a5, a6, a7]
      = [a1] ++ [a2] ++ [a3] ++ [a4] ++ [a5] ++ [a6] ++ [a7] := rfl
  rw [h]
  exact List.Sublist.append (List.Sublist.append (List.Sublist.append (List.Sublist.append
    (List.Sublist.append (List.Sublist.append (ite_singleton_sublist _ _)
      (ite_singleton_sublist _ _)) (ite_singleton_sublist _ _)) (ite_singleton_sublist _ _))
    (ite_singleton_sublist _ _)) (ite_singleton_sublist _ _)) (ite_singleton_sublist _ _)

/-- C6 (amended): within one tick each module receives per-deck events in the
source field order beat, time, bpm, original_bpm, phrase, next_phrase,
next_phrase_in (each block a sublist of that order), the master mirrors use
the same field order, and the mirrors fire immediately after the master
deck's own events — before later decks' events — as the concrete two-deck
trace exhibits. -/
theorem c6_dispatch_order (m i : Nat) (res : TrackTrackerResult)
    (pv nv : String) (f1 f2 f3 f4 f5 f6 f7 : Bool) :
    (deckFieldEvents m i res f1 f2 f3 f4 f5 f6 f7).Sublist
        [Event.beat_update m res.beat i,
         Event.time_update m ((res.timing_data_raw.sample_position : ℚ) / 44100) i,
         Event.bpm_changed m res.timing_data_raw.current_bpm i,
         Event.original_bpm_changed m res.original_bpm i,
         Event.phrase_changed m res.phrase i,
         Event.next_phrase_changed m res.next_phrase i,
         Event.next_phrase_in m res.next_phrase_in i]
    ∧ (masterFieldEvents m res pv nv f1 f2 f3 f4 f5 f6 f7).Sublist
        [Event.beat_update_master m res.beat,
         Event.time_update_master m ((res.timing_data_raw.sample_position : ℚ) / 44100),
         Event.bpm_changed_master m res.timing_data_raw.current_bpm,
         Event.original_bpm_changed_master m res.original_bpm,
         Event.phrase_changed_master m pv,
         Event.next_phrase_changed_master m nv,
         Event.next_phrase_in_master m res.next_phrase_in]
    ∧ updateEvents bkOrder envOrder false false
      = Event.pre_update 0
        :: ([Event.beat_update 0 0 0, Event.bpm_changed 0 100 0,
             Event.original_bpm_changed 0 120 0, Event.phrase_changed 0 "PhraseA" 0,
             Event.next_phrase_changed 0 "PhraseB" 0, Event.next_phrase_in 0 8 0]
            ++ [Event.beat_update_master 0 0, Event.bpm_changed_master 0 100,
                Event.original_bpm_changed_master 0 120, Event.phrase_changed_master 0 "PhraseA",
                Event.next_phrase_changed_master 0 "PhraseB", Event.next_phrase_in_master 0 8]
            ++ [Event.bpm_changed 0 90 1, Event.original_bpm_changed 0 120 1]) := by
  refine ⟨?_, ?_, ?_⟩
  · unfold deckFieldEvents
    exact ite_chain_sublist _ _ _ _ _ _ _ _ _ _ _ _ _ _
  · unfold masterFieldEvents
    exact ite_chain_sublist _ _ _ _ _ _ _ _ _ _ _ _ _ _
  · decide

end Rkbx
